import Mathlib

/-!
Verification development for the Kobo annotation exporter
(`export_annotations.py`): a shallow embedding of the location decoder
(`get_annotation_position`), the chapter locator and page reconstruction
(`get_page_image`), the markup compositor (`merge_markup_with_page`,
`export_to_joplin`), and the stylesheet sizing, together with theorems
settling the specification claims.

Python strings are modelled as Lean `String` (operating on `.data`
character lists), Python floats as `ℚ` (with explicit `nan`/`inf`
variants where the code can receive them), Python ints as `ℤ`, and
Python control flow returning `None` or raising exceptions as explicit
`PyOutcome` values.
-/

/-- Result of a Python function call at the boundary we model:
a returned value, a returned `None`, or an uncaught exception. -/
inductive PyOutcome (α : Type) where
  | ok (a : α)
  | retNone
  | raised (e : String)
deriving DecidableEq

/-- A value read from the `ChapterProgress` column of the Kobo database:
`NULL`, a string, or a number. -/
inductive PyValue where
  | pynone
  | pystr (s : String)
  | pynum (q : ℚ)
deriving DecidableEq

/-- A Python float as produced by `float(str)`: `nan`, signed infinity,
or a finite value (modelled as a rational). -/
inductive PyFloat where
  | nan
  | inf (neg : Bool)
  | val (q : ℚ)
deriving DecidableEq

/-- Python `int(x)` truncates toward zero: the truncated quotient of the
reduced numerator and denominator. -/
def py_trunc (q : ℚ) : ℤ := q.num.tdiv q.den

/-- Drop leading and trailing whitespace, as Python `str.strip()` does
before numeric conversion. -/
def trimWs (l : List Char) : List Char :=
  ((l.dropWhile Char.isWhitespace).reverse.dropWhile Char.isWhitespace).reverse

/-- Numeric value of a digit string. -/
def digitsVal (l : List Char) : ℕ :=
  l.foldl (fun acc c => 10 * acc + (c.toNat - '0'.toNat)) 0

/-- Model of Python `int(s)` on strings: optional sign and a nonempty
run of digits (digit-grouping underscores are not modelled; every
capture the code converts is a plain digit run). `none` models a raised
`ValueError`. -/
def py_int? (s : String) : Option ℤ :=
  match trimWs s.data with
  | '+' :: r => if r ≠ [] ∧ r.all Char.isDigit then some (digitsVal r) else none
  | '-' :: r => if r ≠ [] ∧ r.all Char.isDigit then some (-(digitsVal r : ℤ)) else none
  | r => if r ≠ [] ∧ r.all Char.isDigit then some (digitsVal r) else none

/-- Exponent part of a float literal (input is already lowercased). -/
def parse_exp_part (m : ℚ) (l : List Char) : Option ℚ :=
  match l with
  | [] => some m
  | 'e' :: r =>
    match r with
    | '+' :: r2 =>
        if r2 ≠ [] ∧ r2.all Char.isDigit then some (m * (10 : ℚ) ^ digitsVal r2) else none
    | '-' :: r2 =>
        if r2 ≠ [] ∧ r2.all Char.isDigit then some (m / (10 : ℚ) ^ digitsVal r2) else none
    | r2 =>
        if r2 ≠ [] ∧ r2.all Char.isDigit then some (m * (10 : ℚ) ^ digitsVal r2) else none
  | _ => none

/-- Mantissa (digits, optional fraction) of a float literal. -/
def parse_plain_float (l : List Char) : Option ℚ :=
  let ip := l.takeWhile Char.isDigit
  let r1 := l.dropWhile Char.isDigit
  match r1 with
  | '.' :: r2 =>
    let fp := r2.takeWhile Char.isDigit
    let r3 := r2.dropWhile Char.isDigit
    if ip = [] ∧ fp = [] then none
    else parse_exp_part ((digitsVal ip : ℚ) + (digitsVal fp : ℚ) / (10 : ℚ) ^ fp.length) r3
  | _ => if ip = [] then none else parse_exp_part (digitsVal ip : ℚ) r1

/-- Body of a float literal after the sign (already lowercased). -/
def parse_float_body (neg : Bool) (l : List Char) : Option PyFloat :=
  if l = ['i', 'n', 'f'] ∨ l = ['i', 'n', 'f', 'i', 'n', 'i', 't', 'y'] then some (.inf neg)
  else if l = ['n', 'a', 'n'] then some .nan
  else (parse_plain_float l).map (fun q => .val (if neg then -q else q))

/-- Model of Python `float(s)`: strip whitespace, optional sign, then a
decimal literal, `inf`/`infinity`, or `nan` (case-insensitive).
Digit-grouping underscores are not modelled. `none` models a raised
`ValueError`. -/
def py_float? (s : String) : Option PyFloat :=
  match (trimWs s.data).map Char.toLower with
  | '+' :: r => parse_float_body false r
  | '-' :: r => parse_float_body true r
  | r => parse_float_body false r

/-- Contiguous-sublist test on character lists. -/
def isInfixL (needle : List Char) : List Char → Bool
  | [] => needle.isPrefixOf []
  | c :: rest => needle.isPrefixOf (c :: rest) || isInfixL needle rest

/-- Python `needle in haystack` on strings: contiguous substring test. -/
def str_in (needle hay : String) : Bool :=
  isInfixL needle.data hay.data

/-- Worker for `py_split`; fuel is the input length, which bounds the
number of steps for a nonempty separator. -/
def splitGo (sep : List Char) : ℕ → List Char → List Char → List (List Char)
  | _, acc, [] => [acc.reverse]
  | 0, acc, l => [acc.reverse ++ l]
  | fuel + 1, acc, c :: rest =>
    if sep.isPrefixOf (c :: rest) then
      acc.reverse :: splitGo sep fuel [] ((c :: rest).drop sep.length)
    else
      splitGo sep fuel (c :: acc) rest

/-- Python `s.split(sep)` for a nonempty separator: non-overlapping,
left-to-right. -/
def py_split (s sep : String) : List String :=
  (splitGo sep.data s.data.length [] s.data).map List.asString

/-- Lexicographic comparison of character lists by code point — the
order Python uses to sort `str` values. -/
def lexLe : List Char → List Char → Bool
  | [], _ => true
  | _ :: _, [] => false
  | a :: as, b :: bs => if a < b then true else if a = b then lexLe as bs else false

/-- Match a literal character-list prefix, returning the remainder. -/
def dropPrefixL : List Char → List Char → Option (List Char)
  | [], l => some l
  | _ :: _, [] => none
  | p :: ps, c :: cs => if p = c then dropPrefixL ps cs else none

/-- Try to match the regex `pre(\d+)suf` anchored at the head of `l`,
returning the digits captured by group 1. Greedy `\d+` is maximal-munch,
which is exact here because the suffixes used never start with a digit. -/
def tryMatchPDS (pre suf : List Char) (l : List Char) : Option String :=
  match dropPrefixL pre l with
  | none => none
  | some r1 =>
    let ds := r1.takeWhile Char.isDigit
    let r2 := r1.dropWhile Char.isDigit
    if ds = [] then none
    else if suf.isPrefixOf r2 then some ds.asString else none

/-- `re.search` for a `pre(\d+)suf` pattern: leftmost match wins. -/
def searchPDS (pre suf : List Char) : List Char → Option String
  | [] => tryMatchPDS pre suf []
  | c :: rest =>
    match tryMatchPDS pre suf (c :: rest) with
    | some g => some g
    | none => searchPDS pre suf rest

/-- `re.search(pre + r"(\d+)" + suf, s)`, case-sensitive. -/
def search1 (pre suf s : String) : Option String :=
  searchPDS pre.data suf.data s.data

/-- `re.search(pre + r"(\d+)" + suf, s, re.IGNORECASE)`. -/
def search1CI (pre suf s : String) : Option String :=
  searchPDS (pre.data.map Char.toLower) (suf.data.map Char.toLower) (s.data.map Char.toLower)

/-- Capture group 2 of a chapter pattern: absent from the pattern
(Python raises `IndexError` on access), present but unmatched, or
matched text. -/
inductive Group2 where
  | missing
  | unmatched
  | matched (s : String)
deriving DecidableEq

/-- `int(match.group(2)) if match.group(2) else 0` — `none` models a
raised `IndexError`/`ValueError`, which the callers catch and turn into
a returned `None`. -/
def group2_val : Group2 → Option ℤ
  | .missing => none
  | .unmatched => some 0
  | .matched s => if s = "" then some 0 else py_int? s

/-- One entry of the `chapter_formats.json` configuration. The regex of
`chapter_pattern` is modelled by its match functions (case-sensitive and
`re.IGNORECASE`), returning group 1 and group 2 of the first match. -/
structure FormatConfig where
  path_marker : String
  search : String → Option (String × Group2)
  searchCI : String → Option (String × Group2)
  epub_path_split : Option String

/-- The two ordered format lists loaded from `chapter_formats.json`. -/
structure ChapterFormats where
  kepub_formats : List FormatConfig
  epub_formats : List FormatConfig

/-- A one-group configured pattern `pre(\d+)suf` (group 2 absent). -/
def mk_pat1 (marker pre suf : String) (split : Option String) : FormatConfig where
  path_marker := marker
  search := fun s => (search1 pre suf s).map (fun g => (g, .missing))
  searchCI := fun s => (search1CI pre suf s).map (fun g => (g, .missing))
  epub_path_split := split

/-- A two-group configured pattern `pre(\d+)suf(...)?` whose optional
second group is unmatched on the inputs considered. -/
def mk_pat2 (marker pre suf : String) (split : Option String) : FormatConfig where
  path_marker := marker
  search := fun s => (search1 pre suf s).map (fun g => (g, .unmatched))
  searchCI := fun s => (search1CI pre suf s).map (fun g => (g, .unmatched))
  epub_path_split := split

/-- The dictionary returned by `get_annotation_position` for a decoded
content ID. The three constructors record which branch produced it (the
branches return dictionaries with different key sets in the source);
fields copied verbatim from the database row are omitted. -/
inductive PositionDict where
  | kepub (chapter_num pos : ℤ) (epub_path : String)
  | epub (chapter_num pos : ℤ) (epub_path : String)
  | fallback (chapter_num pos : ℤ) (epub_path : String)
deriving DecidableEq

/-- KEPUB loop of `get_annotation_position` (lines 1406-1429): first
entry whose `path_marker` is a substring and whose pattern matches.
Shared with `get_page_image`, whose KEPUB loop has the same
first-match-wins structure (lines 838-902). -/
def kepub_find (fmts : List FormatConfig) (cid : String) : Option (FormatConfig × String) :=
  match fmts with
  | [] => none
  | fc :: rest =>
    if str_in fc.path_marker cid then
      match fc.search cid with
      | some (g1, _) => some (fc, g1)
      | none => kepub_find rest cid
    else kepub_find rest cid

/-- KEPUB branch of `get_annotation_position`: `some r` means the branch
returned (with `r = none` modelling a caught exception that becomes a
returned `None`); `none` means no KEPUB entry matched and the function
falls through to the EPUB loop. -/
def parse_kepub_branch (fmts : List FormatConfig) (cid : String) :
    Option (Option PositionDict) :=
  match kepub_find fmts cid with
  | none => none
  | some (fc, g1) =>
    match py_int? g1 with
    | none => some none
    | some n =>
      match fc.epub_path_split with
      | none => some none
      | some sep => some (some (.kepub n 0 ((py_split cid sep).getD 0 "")))

/-- EPUB loop of `get_annotation_position` (lines 1432-1451): split on
the marker, match the pattern against the segment after the first
marker, capture chapter and optional offset. `some r`/`none` as in
`parse_kepub_branch`. -/
def parse_epub_branch (fmts : List FormatConfig) (cid : String) :
    Option (Option PositionDict) :=
  match fmts with
  | [] => none
  | fc :: rest =>
    if str_in fc.path_marker cid then
      let parts := py_split cid fc.path_marker
      if 1 < parts.length then
        match fc.search (parts.getD 1 "") with
        | some (g1, g2) =>
          match py_int? g1 with
          | none => some none
          | some n =>
            match group2_val g2 with
            | none => some none
            | some p => some (some (.epub n p (parts.getD 0 "")))
        | none => parse_epub_branch rest cid
      else parse_epub_branch rest cid
    else parse_epub_branch rest cid

/-- Digits of the first `part(\d+)\.xhtml` match — the hardcoded
fallback pattern (lines 909, 931, 944, 1455). -/
def part_search (s : String) : Option String :=
  search1 "part" ".xhtml" s

/-- Fallback branch of `get_annotation_position` (lines 1454-1472):
the hardcoded `OEBPS/part` handling, splitting the package path on
`!!`. -/
def parse_fallback_branch (cid : String) : Option PositionDict :=
  if str_in "OEBPS/part" cid then
    match part_search cid with
    | some d =>
      match py_int? d with
      | none => none
      | some n => some (.fallback n 0 ((py_split cid "!!").getD 0 ""))
    | none => none
  else none

/-- Content-ID parsing of `get_annotation_position` (lines 1404-1476);
the database row fetch around it is abstracted away. Order in the
source: KEPUB loop, then EPUB loop, then the `OEBPS/part` fallback. -/
def get_annotation_position (cf : ChapterFormats) (cid : String) : Option PositionDict :=
  match parse_kepub_branch cf.kepub_formats cid with
  | some r => r
  | none =>
    match parse_epub_branch cf.epub_formats cid with
    | some r => r
    | none => parse_fallback_branch cid

/-- Sort key of the KEPUB chapter search (`get_chapter_number`,
lines 867-874): the first KEPUB pattern matching the href
case-insensitively gives `int(group 1)`; no match sorts as `0`.
`none` models the `ValueError` a failed `int()` raises. -/
def kepub_key? (fmts : List FormatConfig) (href : String) : Option ℤ :=
  match fmts with
  | [] => some 0
  | fmt :: rest =>
    match fmt.searchCI href with
    | some (g1, _) => py_int? g1
    | none => kepub_key? rest href

/-- Linear-scan predicate of the KEPUB chapter search (lines 881-893):
does some KEPUB pattern match the href with captured number equal to
`n`? `none` models a raised `ValueError` from `int()`. -/
def kepub_href_match? (fmts : List FormatConfig) (n : ℤ) (href : String) : Option Bool :=
  match fmts with
  | [] => some false
  | fmt :: rest =>
    match fmt.searchCI href with
    | none => kepub_href_match? rest n href
    | some (g1, _) =>
      match py_int? g1 with
      | none => none
      | some m => if m = n then some true else kepub_href_match? rest n href

/-- Scan the sorted document list for the chapter numbered `n`
(lines 878-899); no hit is `return None`. -/
def kepub_scan (fmts : List FormatConfig) (n : ℤ) : List String → PyOutcome String
  | [] => .retNone
  | h :: rest =>
    match kepub_href_match? fmts n h with
    | none => .retNone
    | some true => .ok h
    | some false => kepub_scan fmts n rest

/-- KEPUB chapter search of `get_page_image` (lines 852-899): filter the
documents to those matched case-insensitively by some KEPUB pattern,
sort by the captured chapter number, scan for `n`. -/
def kepub_chapter_search (fmts : List FormatConfig) (docs : List String) (n : ℤ) :
    PyOutcome String :=
  let items := docs.filter (fun href => fmts.any (fun fmt => (fmt.searchCI href).isSome))
  match items.mapM (fun h => (kepub_key? fmts h).map (fun k => (h, k))) with
  | none => .retNone
  | some pairs =>
    let sorted := (List.insertionSort (fun a b : String × ℤ => a.2 ≤ b.2) pairs).map Prod.fst
    kepub_scan fmts n sorted

/-- Sort key of the `OEBPS/part` fallback search (lines 929-935). -/
def fallback_key (href : String) : ℤ :=
  match part_search href with
  | some d => (py_int? d).getD 0
  | none => 0

/-- Linear scan of the `OEBPS/part` fallback search (lines 941-951). -/
def fallback_scan (n : ℤ) : List String → PyOutcome String
  | [] => .retNone
  | h :: rest =>
    match part_search h with
    | some d => if py_int? d = some n then .ok h else fallback_scan n rest
    | none => fallback_scan n rest

/-- `OEBPS/part` chapter search of `get_page_image` (lines 915-957):
filter documents containing `OEBPS/part`, sort by the captured number,
scan for `n`. -/
def fallback_chapter_search (docs : List String) (n : ℤ) : PyOutcome String :=
  let items := docs.filter (fun h => str_in "OEBPS/part" h)
  let sorted :=
    (List.insertionSort (fun a b : String × ℤ => a.2 ≤ b.2)
      (items.map (fun h => (h, fallback_key h)))).map Prod.fst
  fallback_scan n sorted

/-- `OEBPS/part` special-case branch of `get_page_image`
(lines 908-962). -/
def resolve_fallback (docs : List String) (cid : String) : PyOutcome String :=
  match part_search cid with
  | some d =>
    match py_int? d with
    | none => .retNone
    | some n => fallback_chapter_search docs n
  | none => .retNone

/-- Ordinal chapter selection of the plain-EPUB branch (lines 976-985):
sort all document entries lexicographically by name and select index
`n - 1`; out of bounds is `return None` after logging "out of range". -/
def ordinal_lookup (docs : List String) (n : ℤ) : Option String :=
  let sorted := List.insertionSort (fun a b : String => lexLe a.data b.data = true) docs
  if 0 ≤ n - 1 ∧ n - 1 < (sorted.length : ℤ) then some (sorted.getD (n - 1).toNat "") else none

/-- Plain-EPUB branch of `get_page_image` (lines 963-986 together with
the `if not chapter` check at line 991): iterate `epub_formats`; on a
match, select the chapter ordinally. If the loop ends with no match,
the local `chapter` was never assigned and line 991 raises `NameError`. -/
def resolve_epub (fmts : List FormatConfig) (docs : List String) (cid : String) :
    PyOutcome String :=
  match fmts with
  | [] => .raised "NameError"
  | fc :: rest =>
    if str_in fc.path_marker cid then
      let parts := py_split cid fc.path_marker
      if 1 < parts.length then
        match fc.search (parts.getD 1 "") with
        | some (g1, g2) =>
          match py_int? g1 with
          | none => .retNone
          | some n =>
            match group2_val g2 with
            | none => .retNone
            | some _ =>
              match ordinal_lookup docs n with
              | some href => .ok href
              | none => .retNone
        | none => resolve_epub rest docs cid
      else resolve_epub rest docs cid
    else resolve_epub rest docs cid

/-- Chapter resolution of `get_page_image` (lines 836-993): the KEPUB
loop first; if no KEPUB entry matches, the hardcoded `OEBPS/part`
special case is checked BEFORE the `epub_formats` loop. -/
def resolve_chapter (cf : ChapterFormats) (docs : List String) (cid : String) :
    PyOutcome String :=
  match kepub_find cf.kepub_formats cid with
  | some (_, g1) =>
    match py_int? g1 with
    | none => .retNone
    | some n => kepub_chapter_search cf.kepub_formats docs n
  | none =>
    if str_in "OEBPS/part" cid then resolve_fallback docs cid
    else resolve_epub cf.epub_formats docs cid

/-- First `epub_formats` entry whose marker is a substring, the split
has a tail, and the pattern matches the tail. -/
def epub_find (fmts : List FormatConfig) (cid : String) : Option FormatConfig :=
  fmts.find? (fun fc =>
    str_in fc.path_marker cid &&
      (let parts := py_split cid fc.path_marker
       decide (1 < parts.length) && (fc.search (parts.getD 1 "")).isSome))

/-- Modelled from the spec, for comparison only: chapter resolution with
the order the claim asserts — KEPUB list, then EPUB list, then the
fallback pattern, first match wins. -/
def resolve_chapter_claim_order (cf : ChapterFormats) (docs : List String) (cid : String) :
    PyOutcome String :=
  match kepub_find cf.kepub_formats cid with
  | some (_, g1) =>
    match py_int? g1 with
    | none => .retNone
    | some n => kepub_chapter_search cf.kepub_formats docs n
  | none =>
    match epub_find cf.epub_formats cid with
    | some _ => resolve_epub cf.epub_formats docs cid
    | none =>
      if str_in "OEBPS/part" cid then resolve_fallback docs cid
      else .retNone

/-- A PIL image, reduced to what the claims observe: its dimensions and
whether it is the blank white placeholder produced by `Image.new`. -/
structure Img where
  width : ℤ
  height : ℤ
  blank : Bool
deriving DecidableEq

/-- The EPUB package as `ebooklib` exposes it to `get_page_image`:
whether `epub.read_epub` succeeds, and the hrefs of the `ITEM_DOCUMENT`
entries in book order. -/
structure Book where
  readable : Bool
  docs : List String
deriving DecidableEq

/-- CPython `max(0.0, min(1.0, x))` for a float `x`, including the
`nan`/`inf` cases: `min`/`max` keep their first argument unless a later
one compares strictly smaller/larger. -/
def py_min_clamp : PyFloat → ℚ
  | .val q => max 0 (min 1 q)
  | .nan => 1
  | .inf false => 1
  | .inf true => 0

/-- Progress normalization of `get_page_image` (lines 1148-1162): a
string is converted with `float()`, a `ValueError` silently becomes
`0.0`, and the result is clamped to `[0, 1]`. -/
def normalize_progress : PyValue → ℚ
  | .pynone => 0
  | .pystr s =>
    match py_float? s with
    | none => 0
    | some f => py_min_clamp f
  | .pynum q => max 0 (min 1 q)

/-- Crop-window computation of `get_page_image` (lines 1199-1219), for
an already-normalized progress: `target = int(progress * total)`,
`crop = max(0, target - page_height // 2)` clamped by
`max(0, total - page_height)`. -/
def compute_crop (progress : ℚ) (total_height page_height : ℤ) : ℤ :=
  min (max 0 (py_trunc (progress * (total_height : ℚ)) - page_height.fdiv 2))
    (max 0 (total_height - page_height))

/-- `get_page_image` (lines 815-1274). External effects are oracles:
`content_ok` stands for the HTML extraction/soup stage between chapter
resolution and the page-dimension assignment (lines 997-1086),
`render_ok` for the `imgkit` rasterization, and `full_height` for the
height of the full-chapter bitmap the rasterizer returns. The final
`except` block (lines 1270-1274) builds its placeholder from
`page_width`/`page_height`, which are local variables first assigned at
lines 1087-1088 — so an exception caught before that assignment makes
the handler itself raise `NameError`. -/
def get_page_image (cf : ChapterFormats) (book : Book) (cid : String)
    (cp : PyValue) (zoom : ℚ) (content_ok render_ok : Bool) (full_height : ℕ) :
    PyOutcome (Img × ℤ × ℤ) :=
  if book.readable = false then .raised "NameError"
  else
    match resolve_chapter cf book.docs cid with
    | .retNone => .retNone
    | .raised _ => .raised "NameError"
    | .ok _ =>
      if content_ok = false then .raised "NameError"
      else
        let page_width := py_trunc (800 * zoom)
        let page_height := py_trunc (1800 * zoom)
        if cp = .pynone then
          if render_ok = false then .ok (⟨page_width, page_height, true⟩, 0, page_height)
          else .ok (⟨page_width, page_height, false⟩, 0, page_height)
        else
          if render_ok = false then .ok (⟨page_width, page_height, true⟩, 0, page_height)
          else
            let total : ℤ := (full_height : ℤ)
            let crop_y := compute_crop (normalize_progress cp) total page_height
            .ok (⟨page_width, min (crop_y + page_height) total - crop_y, false⟩, crop_y, total)

/-- A markup SVG file as `merge_markup_with_page` sees it: its own
declared (native) size and whether parsing/rasterizing it succeeds. -/
structure Svg where
  native_width : ℤ
  native_height : ℤ
  valid : Bool
deriving DecidableEq

/-- Size at which `merge_markup_with_page` rasterizes the markup
(lines 1324-1337): the SVG's `viewBox`, `width` and `height` attributes
are overwritten with the page dimensions before `cairosvg` renders it,
so the raster is exactly page-sized whatever the native size was. -/
def markup_raster_size (_svg : Svg) (page_width page_height : ℤ) : ℤ × ℤ :=
  (page_width, page_height)

/-- `merge_markup_with_page` (lines 1309-1353): any exception while
reading, parsing or rasterizing the SVG is caught and becomes a
returned `None`; otherwise the page-sized markup raster is
alpha-composited over the page and flattened to RGB. -/
def merge_markup_with_page (svg : Svg) (page_width page_height : ℤ) : Option Img :=
  if svg.valid = false then none
  else some ⟨(markup_raster_size svg page_width page_height).1,
             (markup_raster_size svg page_width page_height).2, false⟩

/-- Modelled from the spec (§4.5), for comparison only: the resized
markup dimensions the claim asserts — width rescaled to the page width
by a single factor, height scaled by the same factor. -/
def markup_resize_claim (native_width native_height page_width : ℤ) : ℤ × ℤ :=
  (page_width, native_height * page_width / native_width)

/-- Outcome of the markup branch of `export_to_joplin` for one markup
item: either a combined image was produced and previewed (returning
`True`), or the "Could not generate preview image" error is shown and
`False` returned. -/
inductive ExportOutcome where
  | previewed (img : Img)
  | failed
deriving DecidableEq

/-- Markup branch of `export_to_joplin` (lines 1688-1728) for a single
selected markup item: if either file is missing, or
`merge_markup_with_page` returns `None`, the function shows an error
and returns `False` — it does NOT fall back to the plain page image. -/
def export_markup_item (markup_file_exists page_file_exists : Bool) (svg : Svg)
    (page_width page_height : ℤ) : ExportOutcome :=
  if markup_file_exists = false then .failed
  else if page_file_exists = false then .failed
  else
    match merge_markup_with_page svg page_width page_height with
    | some img => .previewed img
    | none => .failed

/-- Heading font size of the generated stylesheet (line 1134):
`int(font_size * 1.2)`. -/
def heading_font_size (font_size : ℚ) : ℤ :=
  py_trunc (font_size * (6 / 5))

/-- Test fixture: the KEPUB format entry of the claims
(`path_marker = "kepub.epub!!"`, `chapter_pattern = "chapter(\d+)\.xhtml"`,
`epub_path_split = "!!"`). -/
def fcChapter : FormatConfig := mk_pat1 "kepub.epub!!" "chapter" ".xhtml" (some "!!")

/-- Test fixture: configuration holding only `fcChapter`. -/
def cfK : ChapterFormats := ⟨[fcChapter], []⟩

/-- Test fixture: the content ID of the claims. -/
def cidK : String := "book.kepub.epub!!OEBPS/chapter0003.xhtml"

/-- Test fixture: a readable book containing chapter 3. -/
def bookK : Book := ⟨true, ["OEBPS/chapter0003.xhtml"]⟩

/-- Test fixture for the dispatch-order claim: one EPUB format entry
(`path_marker = "!"`, two-group pattern `part(\d+)\.xhtml...`), no KEPUB
entries. -/
def cfC2 : ChapterFormats := ⟨[], [mk_pat2 "!" "part" ".xhtml" none]⟩

/-- Test fixture: content ID matched both by the EPUB entry of `cfC2`
and by the hardcoded `OEBPS/part` fallback. -/
def cidC2 : String := "book.epub!OEBPS/part0002.xhtml"

/-- Test fixture: document entries for the dispatch-order claim. -/
def docsC2 : List String := ["OEBPS/part0002.xhtml", "aaa.xhtml", "bbb.xhtml"]

lemma py_trunc_eq_floor {q : ℚ} (h : 0 ≤ q) : py_trunc q = ⌊q⌋ := by
  rw [py_trunc, Rat.floor_def, Int.tdiv_eq_ediv (Rat.num_nonneg.mpr h) (Int.natCast_nonneg _)]

lemma py_trunc_nonneg {q : ℚ} (h : 0 ≤ q) : 0 ≤ py_trunc q :=
  Int.tdiv_nonneg (Rat.num_nonneg.mpr h) (Int.natCast_nonneg _)

lemma resolve_cfK : resolve_chapter cfK bookK.docs cidK = .ok "OEBPS/chapter0003.xhtml" := by
  decide

/-- Claim C3: for every progress in `[-1, 2]` and total height in
`[0, 100000]` with page height `1800`, the crop top computed by
`get_page_image` satisfies `0 ≤ crop ≤ max 0 (total - 1800)`, and is `0`
whenever the chapter is at most one page tall. -/
theorem crop_top_bounds (p : ℚ) (h1 : -1 ≤ p) (h2 : p ≤ 2) (total : ℤ)
    (h3 : 0 ≤ total) (h4 : total ≤ 100000) :
    0 ≤ compute_crop (normalize_progress (.pynum p)) total 1800 ∧
    compute_crop (normalize_progress (.pynum p)) total 1800 ≤ max 0 (total - 1800) ∧
    (total ≤ 1800 → compute_crop (normalize_progress (.pynum p)) total 1800 = 0) := by
  refine ⟨le_min (le_max_left _ _) (le_max_left _ _), min_le_right _ _, fun hle => ?_⟩
  rw [compute_crop, max_eq_left (by omega : total - 1800 ≤ 0)]
  exact min_eq_right (le_max_left _ _)

/-- Witness for C3 at `progress = 1/2`, `total = 1000`. -/
theorem crop_top_bounds_witness :
    0 ≤ compute_crop (normalize_progress (.pynum (1 / 2))) 1000 1800 ∧
    compute_crop (normalize_progress (.pynum (1 / 2))) 1000 1800 ≤ max 0 (1000 - 1800) ∧
    ((1000 : ℤ) ≤ 1800 → compute_crop (normalize_progress (.pynum (1 / 2))) 1000 1800 = 0) :=
  crop_top_bounds (1 / 2) (by norm_num) (by norm_num) 1000 (by norm_num) (by norm_num)

/-- Claim C4: chapter progress is clamped to `[0, 1]` before use —
`-0.2` normalizes to `0`, `1.7` normalizes to `1`, every value
normalizes into `[0, 1]`, and the page image's crop window is computed
from the normalized value. -/
theorem chapter_progress_clamped :
    normalize_progress (.pynum (-(2 / 10))) = 0 ∧
    normalize_progress (.pynum (17 / 10)) = 1 ∧
    (∀ v, 0 ≤ normalize_progress v ∧ normalize_progress v ≤ 1) ∧
    (∀ (cp : PyValue) (fh : ℕ), cp ≠ PyValue.pynone → 1800 ≤ (fh : ℤ) →
      get_page_image cfK bookK cidK cp 1 true true fh =
        .ok (⟨800, 1800, false⟩, compute_crop (normalize_progress cp) (fh : ℤ) 1800,
          (fh : ℤ))) := by
  refine ⟨?_, ?_, ?_, ?_⟩
  · rw [normalize_progress]
    norm_num
  · rw [normalize_progress]
    norm_num
  · intro v
    cases v with
    | pynone => norm_num [normalize_progress]
    | pystr s =>
      rw [normalize_progress]
      cases hf : py_float? s with
      | none => norm_num
      | some f =>
        cases f with
        | nan => norm_num [py_min_clamp]
        | inf neg => cases neg <;> norm_num [py_min_clamp]
        | val q =>
          simp only [py_min_clamp]
          exact ⟨le_max_left _ _, max_le (by norm_num) (min_le_left _ _)⟩
    | pynum q =>
      rw [normalize_progress]
      exact ⟨le_max_left _ _, max_le (by norm_num) (min_le_left _ _)⟩
  · intro cp fh hcp hfh
    have hres : resolve_chapter cfK bookK.docs cidK = .ok "OEBPS/chapter0003.xhtml" := by
      decide
    have hw : py_trunc (800 * 1 : ℚ) = 800 := by
      norm_num [py_trunc]
    have hh : py_trunc (1800 * 1 : ℚ) = 1800 := by
      norm_num [py_trunc]
    have hc0 : 0 ≤ compute_crop (normalize_progress cp) (fh : ℤ) 1800 :=
      le_min (le_max_left _ _) (le_max_left _ _)
    have hcu : compute_crop (normalize_progress cp) (fh : ℤ) 1800 ≤ (fh : ℤ) - 1800 := by
      have h1 := min_le_right
        (max 0 (py_trunc (normalize_progress cp * ((fh : ℤ) : ℚ)) - (1800 : ℤ).fdiv 2))
        (max 0 ((fh : ℤ) - 1800))
      rw [compute_crop]
      omega
    have hmin : min (compute_crop (normalize_progress cp) (fh : ℤ) 1800 + 1800) (fh : ℤ)
        - compute_crop (normalize_progress cp) (fh : ℤ) 1800 = 1800 := by
      omega
    simp only [get_page_image, hres, hw, hh, if_neg hcp, Bool.true_eq_false, if_false, hmin]
    rw [if_neg (by decide : ¬(bookK.readable = false))]

/-- Witness for C4 at `progress = 1/2`, measured height `5000`. -/
theorem chapter_progress_clamped_witness :
    get_page_image cfK bookK cidK (.pynum (1 / 2)) 1 true true 5000 =
      .ok (⟨800, 1800, false⟩,
        compute_crop (normalize_progress (.pynum (1 / 2))) ((5000 : ℕ) : ℤ) 1800,
        ((5000 : ℕ) : ℤ)) :=
  chapter_progress_clamped.2.2.2 (.pynum (1 / 2)) 5000 (by decide) (by norm_num)

/-- Claim C10: a `ChapterProgress` string that `float()` cannot parse is
silently treated as progress `0.0`, which crops at the very top of the
chapter. -/
theorem unparsable_progress_crops_top (s : String) (h : py_float? s = none)
    (total : ℤ) (ht : 0 ≤ total) :
    normalize_progress (.pystr s) = 0 ∧
    compute_crop (normalize_progress (.pystr s)) total 1800 = 0 := by
  have h0 : normalize_progress (.pystr s) = 0 := by
    rw [normalize_progress, h]
  refine ⟨h0, ?_⟩
  rw [h0, compute_crop]
  have hz : py_trunc (0 * (total : ℚ)) = 0 := by
    norm_num [py_trunc]
  have hf : (1800 : ℤ).fdiv 2 = 900 := by decide
  rw [hz, hf]
  omega

/-- Witness for C10 at the unparsable string `"abc"`, total height
`5000`. -/
theorem unparsable_progress_crops_top_witness :
    py_float? "abc" = none ∧
    (normalize_progress (.pystr "abc") = 0 ∧
     compute_crop (normalize_progress (.pystr "abc")) 5000 1800 = 0) :=
  ⟨by decide, unparsable_progress_crops_top "abc" (by decide) 5000 (by norm_num)⟩

/-- Claim C5: the KEPUB content ID
`"book.kepub.epub!!OEBPS/chapter0003.xhtml"` with marker
`"kepub.epub!!"` and pattern `chapter(\d+)\.xhtml` decodes to chapter 3,
offset 0, the KEPUB dictionary shape, and package path
`"book.kepub.epub"` (the prefix before the `!!` split marker). -/
theorem kepub_decode_example :
    get_annotation_position cfK cidK = some (.kepub 3 0 "book.kepub.epub") := by
  decide

/-- Claim C6: the ordinal (plain EPUB) locator sorts entries
lexicographically and selects index `chapterNumber - 1`; on five sorted
entries, chapter 3 yields the third entry and chapter 6 is out of range
(`None`, after the "out of range" diagnostic). -/
theorem ordinal_locator_sorted (a b c d e : String)
    (h : List.Sorted (fun x y : String => lexLe x.data y.data = true) [a, b, c, d, e]) :
    ordinal_lookup [a, b, c, d, e] 3 = some c ∧ ordinal_lookup [a, b, c, d, e] 6 = none := by
  unfold ordinal_lookup
  rw [h.insertionSort_eq]
  norm_num [List.getD]
  rfl

/-- Witness for C6 on the sorted entries `a1 … e1`. -/
theorem ordinal_locator_sorted_witness :
    ordinal_lookup ["a1.xhtml", "b1.xhtml", "c1.xhtml", "d1.xhtml", "e1.xhtml"] 3 =
      some "c1.xhtml" ∧
    ordinal_lookup ["a1.xhtml", "b1.xhtml", "c1.xhtml", "d1.xhtml", "e1.xhtml"] 6 = none :=
  ordinal_locator_sorted "a1.xhtml" "b1.xhtml" "c1.xhtml" "d1.xhtml" "e1.xhtml" (by decide)

/-- Counterexample to C1: with the package file unreadable
(`epub.read_epub` raises), `get_page_image` does not return a
placeholder — the `except` handler references the still-unassigned
`page_width` and raises `NameError` out of the function. -/
theorem page_image_missing_package_raises :
    get_page_image cfK ⟨false, []⟩ cidK .pynone 1 true true 5000 = .raised "NameError" ∧
    PyOutcome.raised "NameError" ≠
      PyOutcome.ok ((⟨800, 1800, true⟩ : Img), (0 : ℤ), (1800 : ℤ)) := by
  exact ⟨by decide, by decide⟩

/-- Claim C1 (amended): `get_page_image` returns the blank placeholder
of the configured dimensions only for failures occurring after the page
dimensions are assigned (e.g. rasterization); an unreadable package
makes the handler itself raise `NameError`, and a chapter that cannot
be resolved yields a returned `None`, not a placeholder. -/
theorem page_image_failure_modes (cf : ChapterFormats) (book : Book) (cid : String)
    (cp : PyValue) (zoom : ℚ) (content_ok render_ok : Bool) (fh : ℕ) :
    (book.readable = false →
      get_page_image cf book cid cp zoom content_ok render_ok fh = .raised "NameError") ∧
    (book.readable = true → resolve_chapter cf book.docs cid = .retNone →
      get_page_image cf book cid cp zoom content_ok render_ok fh = .retNone) ∧
    (book.readable = true → (∃ href, resolve_chapter cf book.docs cid = .ok href) →
      content_ok = true → render_ok = false →
      get_page_image cf book cid cp zoom content_ok render_ok fh =
        .ok (⟨py_trunc (800 * zoom), py_trunc (1800 * zoom), true⟩, 0,
          py_trunc (1800 * zoom))) := by
  refine ⟨?_, ?_, ?_⟩
  · intro hb
    simp [get_page_image, hb]
  · intro hb hr
    simp [get_page_image, hb, hr]
  · rintro hb ⟨href, hr⟩ hc hrend
    by_cases hcp : cp = .pynone <;>
      simp [get_page_image, hb, hr, hc, hrend, hcp]

/-- Witness for C1: a resolvable chapter with a failing rasterizer
yields the placeholder; an empty package yields `None`. -/
theorem page_image_failure_modes_witness :
    get_page_image cfK ⟨true, []⟩ cidK .pynone 1 true true 5000 = .retNone ∧
    get_page_image cfK bookK cidK .pynone 1 true false 5000 =
      .ok (⟨py_trunc (800 * 1), py_trunc (1800 * 1), true⟩, 0, py_trunc (1800 * 1)) :=
  ⟨(page_image_failure_modes cfK ⟨true, []⟩ cidK .pynone 1 true true 5000).2.1 rfl (by decide),
   (page_image_failure_modes cfK bookK cidK .pynone 1 true false 5000).2.2 rfl
     ⟨"OEBPS/chapter0003.xhtml", by decide⟩ rfl rfl⟩

/-- Counterexample to C2: on `cidC2`, which is matched by the EPUB-list
entry of `cfC2` and also contains `OEBPS/part`, the chapter-location
logic of `get_page_image` uses the fallback pattern (finding the
`OEBPS/part0002` entry), while the order the claim asserts would use the
EPUB list (ordinal selection, yielding `"aaa.xhtml"`). -/
theorem dispatch_order_counterexample :
    resolve_chapter cfC2 docsC2 cidC2 = .ok "OEBPS/part0002.xhtml" ∧
    resolve_chapter_claim_order cfC2 docsC2 cidC2 = .ok "aaa.xhtml" ∧
    resolve_chapter cfC2 docsC2 cidC2 ≠ resolve_chapter_claim_order cfC2 docsC2 cidC2 := by
  exact ⟨by decide, by decide, by decide⟩

/-- Claim C2 (amended): `get_annotation_position` matches in the order
KEPUB list → EPUB list → fallback pattern, but the chapter-location
logic of `get_page_image` checks the `OEBPS/part` fallback BEFORE the
EPUB list once no KEPUB entry matches. -/
theorem dispatch_order_amended (cf : ChapterFormats) (docs : List String) (cid : String) :
    (kepub_find cf.kepub_formats cid = none →
      ((str_in "OEBPS/part" cid = true →
          resolve_chapter cf docs cid = resolve_fallback docs cid) ∧
       (str_in "OEBPS/part" cid = false →
          resolve_chapter cf docs cid = resolve_epub cf.epub_formats docs cid))) ∧
    (parse_kepub_branch cf.kepub_formats cid = none →
      ((∀ r, parse_epub_branch cf.epub_formats cid = some r →
          get_annotation_position cf cid = r) ∧
       (parse_epub_branch cf.epub_formats cid = none →
          get_annotation_position cf cid = parse_fallback_branch cid))) := by
  refine ⟨fun hk => ⟨fun hp => ?_, fun hp => ?_⟩, fun hk => ⟨fun r hr => ?_, fun hr => ?_⟩⟩
  · rw [resolve_chapter, hk, hp]
    simp
  · rw [resolve_chapter, hk, hp]
    simp
  · rw [get_annotation_position, hk, hr]
  · rw [get_annotation_position, hk, hr]

/-- Witness for C2 (amended) at the `cfC2` configuration. -/
theorem dispatch_order_amended_witness :
    resolve_chapter cfC2 docsC2 cidC2 = resolve_fallback docsC2 cidC2 ∧
    get_annotation_position cfC2 cidC2 = some (.epub 2 0 "book.epub") :=
  ⟨((dispatch_order_amended cfC2 docsC2 cidC2).1 rfl).1 (by decide),
   ((dispatch_order_amended cfC2 docsC2 cidC2).2 rfl).1 (some (.epub 2 0 "book.epub"))
     (by decide)⟩

/-- Counterexample to C7: a markup of native size `100 × 50` over an
`800 × 1800` page is not rescaled to `800 × 400` (the claim's
aspect-preserving size); the code rasterizes it at the full page size
`800 × 1800`. -/
theorem markup_scale_counterexample :
    markup_raster_size ⟨100, 50, true⟩ 800 1800 = (800, 1800) ∧
    markup_resize_claim 100 50 800 = (800, 400) ∧
    markup_raster_size ⟨100, 50, true⟩ 800 1800 ≠ markup_resize_claim 100 50 800 := by
  exact ⟨rfl, by decide, by decide⟩

/-- Claim C7 (amended): the compositor overwrites the SVG's `viewBox`,
`width` and `height` with the page dimensions, so the markup raster is
always exactly page-sized — width AND height — regardless of its native
size; the native aspect ratio is not preserved. -/
theorem markup_page_sized_amended (svg : Svg) (pw ph : ℤ) :
    markup_raster_size svg pw ph = (pw, ph) ∧
    (svg.valid = true → merge_markup_with_page svg pw ph = some ⟨pw, ph, false⟩) := by
  refine ⟨rfl, fun hv => ?_⟩
  simp [merge_markup_with_page, markup_raster_size, hv]

/-- Witness for C7 (amended) at native size `100 × 50`, page
`800 × 1800`. -/
theorem markup_page_sized_amended_witness :
    merge_markup_with_page ⟨100, 50, true⟩ 800 1800 = some ⟨800, 1800, false⟩ :=
  (markup_page_sized_amended ⟨100, 50, true⟩ 800 1800).2 rfl

/-- Counterexample to C8: with a corrupt markup file present next to its
page image, `export_to_joplin` fails with an error dialog (returning
`False`) instead of exporting the plain page bitmap. -/
theorem invalid_markup_counterexample :
    export_markup_item true true ⟨100, 50, false⟩ 800 1800 = .failed ∧
    export_markup_item true true ⟨100, 50, false⟩ 800 1800 ≠
      ExportOutcome.previewed ⟨800, 1800, false⟩ := by
  exact ⟨by decide, by decide⟩

/-- Claim C8 (amended): on a corrupt or unrasterizable markup,
`merge_markup_with_page` returns `None` and the caller reports "Could
not generate preview image" and returns `False`; it does not degrade to
the plain page bitmap. -/
theorem invalid_markup_amended (svg : Svg) (pw ph : ℤ) (h : svg.valid = false) :
    merge_markup_with_page svg pw ph = none ∧
    export_markup_item true true svg pw ph = .failed := by
  constructor <;> simp [merge_markup_with_page, export_markup_item, h]

/-- Witness for C8 (amended) at an invalid markup. -/
theorem invalid_markup_amended_witness :
    merge_markup_with_page ⟨100, 50, false⟩ 800 1800 = none ∧
    export_markup_item true true ⟨100, 50, false⟩ 800 1800 = .failed :=
  invalid_markup_amended ⟨100, 50, false⟩ 800 1800 rfl

/-- Counterexample to C9: for body font size 16 the generated heading
size is `int(16 * 1.2) = 19`, which is not exactly `1.2 × 16 = 19.2`. -/
theorem heading_size_counterexample :
    heading_font_size 16 = 19 ∧ ((heading_font_size 16 : ℚ) ≠ 6 / 5 * 16) := by
  have h16 : (16 : ℚ) * (6 / 5) = 96 / 5 := by norm_num
  have hfl : heading_font_size 16 = ⌊(96 / 5 : ℚ)⌋ := by
    rw [heading_font_size, h16, py_trunc_eq_floor (by norm_num)]
  have h19 : (⌊(96 / 5 : ℚ)⌋ : ℤ) = 19 := by
    rw [Int.floor_eq_iff]
    norm_num
  refine ⟨hfl.trans h19, ?_⟩
  rw [hfl, h19]
  norm_num

/-- Claim C9 (amended): the heading size is the truncation
`int(1.2 × body)`, i.e. `⌊6 · body / 5⌋` for a nonnegative integer body
size; it equals exactly `1.2 ×` the body size only when the body size is
a multiple of 5. -/
theorem heading_size_amended (n : ℕ) :
    heading_font_size (n : ℚ) = ⌊(6 * n : ℚ) / 5⌋ ∧
    ((5 : ℕ) ∣ n → (heading_font_size (n : ℚ) : ℚ) = 6 / 5 * n) ∧
    (((heading_font_size (n : ℚ) : ℚ) = 6 / 5 * n) → (5 : ℕ) ∣ n) := by
  have hq : (n : ℚ) * (6 / 5) = (6 * n : ℚ) / 5 := by ring
  have h1 : heading_font_size (n : ℚ) = ⌊(6 * n : ℚ) / 5⌋ := by
    rw [heading_font_size, hq, py_trunc_eq_floor (by positivity)]
  refine ⟨h1, fun hd => ?_, fun he => ?_⟩
  · obtain ⟨k, rfl⟩ := hd
    have hk : (6 * (5 * k : ℕ) : ℚ) / 5 = ((6 * k : ℕ) : ℚ) := by
      push_cast
      ring
    rw [h1, hk, Int.floor_natCast]
    push_cast
    ring
  · rw [h1] at he
    have h5 : ((5 : ℚ) * ⌊(6 * n : ℚ) / 5⌋ : ℚ) = 6 * n := by
      rw [he]
      ring
    have h5z : (5 : ℤ) * ⌊(6 * n : ℚ) / 5⌋ = 6 * (n : ℤ) := by
      exact_mod_cast h5
    omega

/-- Witness for C9 (amended) at body size 15. -/
theorem heading_size_amended_witness :
    heading_font_size ((15 : ℕ) : ℚ) = ⌊(6 * (15 : ℕ) : ℚ) / 5⌋ ∧
    (heading_font_size ((15 : ℕ) : ℚ) : ℚ) = 6 / 5 * (15 : ℕ) :=
  ⟨(heading_size_amended 15).1, (heading_size_amended 15).2.1 (by norm_num)⟩
